import Mathlib

/-!
Verification development for the AstroGeo repository
(`src/astrogeo/…`): a shallow embedding in Lean 4 of the routing,
classification, location-extraction, vector-search and provider-tool
code, together with theorems settling the spec claims C1–C10.

Conventions of the embedding:
* Python strings are Lean `String`s; character-level work is done on
  `String.data : List Char`.  `pyLower`, `pyStrip`, `pyIn` model the
  Python `str.lower`, `str.strip` and the `in` substring test for the
  ASCII inputs the program manipulates.
* Network I/O is modelled by explicit outcome values: a `requests.get`
  plus parse either yields a typed payload (`Except.ok`) or raises
  (`Except.error msg`); the Python `try/except` blocks become `match`es
  on those outcomes.
* Similarity scores/distances are modelled as rationals `ℚ`; the code
  only compares and subtracts them, so no floating-point behaviour is
  at issue.
* External effects (one ChromaDB `collection.query`, one HTTP GET per
  provider endpoint) are tracked as an explicit `List` of calls so
  that "zero provider/retriever calls" claims are statable.
-/

/-! ## Basic string helpers (models of the Python primitives used) -/

/-- Model of Python ASCII whitespace for `\s`, `str.strip`, `str.split`:
space, tab, newline, carriage return, vertical tab, form feed. -/
def isWsC (c : Char) : Bool :=
  c = ' ' || c = '\t' || c = '\n' || c = '\r' || c.toNat = 11 || c.toNat = 12

def isAlphaC (c : Char) : Bool :=
  ('a' ≤ c && c ≤ 'z') || ('A' ≤ c && c ≤ 'Z')

def isUpperC (c : Char) : Bool := 'A' ≤ c && c ≤ 'Z'

def isDigitC (c : Char) : Bool := '0' ≤ c && c ≤ '9'

/-- Python regex `\w` (ASCII): letter, digit or underscore. -/
def isWordC (c : Char) : Bool := isAlphaC c || isDigitC c || c = '_'

/-- Model of Python `str.lower` (ASCII case mapping). -/
def pyLower (s : String) : String := ⟨s.data.map Char.toLower⟩

/-- Drop trailing characters satisfying `p` (for `rstrip`). -/
def dropTrailing (p : Char → Bool) (l : List Char) : List Char :=
  (l.reverse.dropWhile p).reverse

/-- Model of Python `str.strip` (no argument form). -/
def pyStripData (l : List Char) : List Char :=
  dropTrailing isWsC (l.dropWhile isWsC)

def pyStrip (s : String) : String := ⟨pyStripData s.data⟩

/-- Does `needle` occur at the head of `hay`? -/
def subAt : List Char → List Char → Bool
  | [], _ => true
  | _ :: _, [] => false
  | a :: as, b :: bs => a == b && subAt as bs

/-- Does `needle` occur anywhere in `hay`? -/
def hasSub (needle : List Char) : List Char → Bool
  | [] => subAt needle []
  | c :: cs => subAt needle (c :: cs) || hasSub needle cs

/-- Model of the Python substring test `needle in hay`. -/
def pyIn (needle hay : String) : Bool := hasSub needle.data hay.data

/-- Truncation used all over the apps: `s[:n] + "..." if len(s) > n else s`. -/
def pyTruncate (n : Nat) (s : String) : String :=
  if n < s.data.length then String.mk (s.data.take n) ++ "..." else s

/-- Python `str(bool)` rendering used in f-strings. -/
def pyBool (b : Bool) : String := if b then "True" else "False"

/-- Python f-string rendering of `dict.get(key)` with no default:
a missing key interpolates as `"None"`. -/
def optStr : Option String → String
  | some s => s
  | none => "None"

/-! ## Semantic Retriever: `search_vector_db`

Three near-identical copies exist in the repository; they differ only
in the availability guard and in the relevance threshold:
* `run_astrogeo.IntelligentAstroGeo.search_vector_db` — guard
  `not self.collection or not self.embedding_model`, threshold `0.3`;
* `final_astrogeo_app.FinalAstroGeoApp.search_vector_db` — guard
  `not self.collection`, threshold `0.2`;
* the inner `VectorStore.search_vector_db` of
  `multi_agent_astrogeo.IntelligentAstroGeoSystem` — threshold `0.3`,
  **no** `try/except` of its own.

The raw ChromaDB reply is `(documents, distances)`; the Python loop
computes `score = 1 - distances[0][i] if distances[0] else 0` and keeps
the document when `score > threshold`. -/

structure Frag where
  content : String
  score : ℚ
  deriving DecidableEq, Repr

/-- The Python per-document score: `1 - distances[i]` when the distance
list is non-empty, else `0` (the `if results['distances'][0] else 0`). -/
def chromaScore (dists : List ℚ) (i : Nat) : ℚ :=
  if dists = [] then 0 else 1 - dists.getD i 0

/-- The filtering loop `for i, doc in enumerate(documents): … if score > thr`. -/
def collectDocs (thr : ℚ) (dists : List ℚ) : List String → Nat → List Frag
  | [], _ => []
  | d :: ds, i =>
    if thr < chromaScore dists i then
      ⟨d, chromaScore dists i⟩ :: collectDocs thr dists ds (i + 1)
    else collectDocs thr dists ds (i + 1)

/-- Python raises `IndexError` (`distances[0][i]`) when the distance list
is non-empty but shorter than the document list; the surrounding
`try/except` then returns `[]`.  This predicate marks that case. -/
def chromaIndexError (docs : List String) (dists : List ℚ) : Bool :=
  !dists.isEmpty && dists.length < docs.length

/-- `run_astrogeo.IntelligentAstroGeo.search_vector_db` (threshold 0.3):
`connected` is `self.collection and self.embedding_model`; `raw` is the
outcome of the embedding + `collection.query` round trip. -/
def raSearchVectorDb (connected : Bool)
    (raw : Except String (List String × List ℚ)) : List Frag :=
  if !connected then []
  else
    match raw with
    | .error _ => []
    | .ok (docs, dists) =>
      if chromaIndexError docs dists then []
      else collectDocs ((3 : ℚ)/10) dists docs 0

/-- `final_astrogeo_app.FinalAstroGeoApp.search_vector_db` (threshold 0.2). -/
def faSearchVectorDb (connected : Bool)
    (raw : Except String (List String × List ℚ)) : List Frag :=
  if !connected then []
  else
    match raw with
    | .error _ => []
    | .ok (docs, dists) =>
      if chromaIndexError docs dists then []
      else collectDocs ((1 : ℚ)/5) dists docs 0

/-! Every fragment the filtering loop keeps scores strictly above the
threshold. -/

theorem collectDocs_score (thr : ℚ) (dists : List ℚ) :
    ∀ (docs : List String) (i : Nat) (f : Frag),
      f ∈ collectDocs thr dists docs i → thr < f.score := by
  intro docs
  induction docs with
  | nil => intro i f h; simp [collectDocs] at h
  | cons d ds ih =>
    intro i f h
    unfold collectDocs at h
    by_cases hc : thr < chromaScore dists i
    · simp only [hc, if_pos] at h
      rcases List.mem_cons.mp h with h | h
      · subst h; exact hc
      · exact ih (i + 1) f h
    · simp only [hc, if_neg, if_false] at h
      exact ih (i + 1) f h

/-- C8: every fragment returned by `search_vector_db` scores strictly
above the call site's relevance floor (0.3 in `run_astrogeo`, 0.2 in
`final_astrogeo_app`; candidates at or below the threshold are
discarded), and when the index is unavailable (`connected = false`) or
the search raises internally (`raw = .error _`), the search returns the
empty list instead of propagating an error. -/
theorem C8_relevance_floor :
    ∀ (connected : Bool) (raw : Except String (List String × List ℚ)) (f : Frag),
      (f ∈ raSearchVectorDb connected raw → (3 : ℚ)/10 < f.score)
    ∧ (f ∈ faSearchVectorDb connected raw → (1 : ℚ)/5 < f.score)
    ∧ raSearchVectorDb false raw = []
    ∧ faSearchVectorDb false raw = []
    ∧ (∀ e, raSearchVectorDb connected (.error e) = []
          ∧ faSearchVectorDb connected (.error e) = []) := by
  intro connected raw f
  refine ⟨?_, ?_, rfl, rfl, ?_⟩
  · intro h
    unfold raSearchVectorDb at h
    split at h
    · simp at h
    · split at h
      · simp at h
      · split at h
        · simp at h
        · exact collectDocs_score _ _ _ _ f h
  · intro h
    unfold faSearchVectorDb at h
    split at h
    · simp at h
    · split at h
      · simp at h
      · split at h
        · simp at h
        · exact collectDocs_score _ _ _ _ f h
  · intro e
    constructor
    · unfold raSearchVectorDb; split <;> rfl
    · unfold faSearchVectorDb; split <;> rfl

/-- Witness for C8 at a concrete index state: a document at distance 1/2
(score 1/2) survives the 0.3 floor and the theorem bounds its score;
with the index unavailable the same call returns `[]`. -/
theorem C8_relevance_floor_witness :
    ((⟨"doc", 1/2⟩ : Frag) ∈ raSearchVectorDb true (.ok (["doc"], [1/2])))
    ∧ (3 : ℚ)/10 < (⟨"doc", 1/2⟩ : Frag).score
    ∧ raSearchVectorDb false (.ok (["doc"], [1/2])) = [] := by
  have hm : (⟨"doc", 1/2⟩ : Frag) ∈ raSearchVectorDb true (.ok (["doc"], [1/2])) := by
    simp [raSearchVectorDb, collectDocs, chromaScore, chromaIndexError]
    norm_num
  exact ⟨hm, (C8_relevance_floor true (.ok (["doc"], [1/2])) ⟨"doc", 1/2⟩).1 hm,
    (C8_relevance_floor true (.ok (["doc"], [1/2])) ⟨"doc", 1/2⟩).2.2.2.1⟩

/-! ## Provider Gateway tools (`tools/nasa_api.py`, `tools/bhuvan_api.py`)

Each `_run` wraps one `requests.get` + parse in `try/except` and always
returns a string.  The network/parse round trip is modelled as an
`Except String payload` outcome: `.error msg` stands for any raised
exception (connection error, timeout, non-2xx `raise_for_status`,
malformed payload / missing key while parsing), with `msg` the Python
`str(e)` text. -/

/-- Payload of the APOD endpoint as read by the tools (`d.get(key)`,
no default: a missing key interpolates as `None`). -/
structure ApodPayload where
  title : Option String
  date : Option String
  explanation : Option String
  url : Option String

/-- `NasaApodTool._run`. -/
def nasaApodRun (outcome : Except String ApodPayload) : String :=
  match outcome with
  | .ok d =>
    "Today's NASA APOD is titled '" ++ optStr d.title ++ "' (" ++ optStr d.date
      ++ "). " ++ optStr d.explanation ++ " Image URL: " ++ optStr d.url
  | .error e => "Error fetching APOD: " ++ e

/-- One Mars-rover photo as indexed by `NasaMarsRoverTool._run`
(`p['earth_date']`, `p['camera']['full_name']`, `p['img_src']`: direct
indexing, so a missing key raises and lands in the `.error` outcome). -/
structure MarsPhotoT where
  earthDate : String
  cameraFullName : String
  imgSrc : String

def marsPhotoLine (p : MarsPhotoT) : String :=
  "- " ++ p.earthDate ++ " " ++ p.cameraFullName ++ ": " ++ p.imgSrc ++ "\n"

/-- `NasaMarsRoverTool._run` (for any `sol`; the sol only affects the
request parameters, not the formatting). -/
def nasaMarsRoverRun (outcome : Except String (List MarsPhotoT)) : String :=
  match outcome with
  | .ok photos =>
    if photos.isEmpty then "No Mars photos found for that sol."
    else "Here are some recent Mars rover images:\n"
      ++ String.join ((photos.take 3).map marsPhotoLine)
  | .error e => "Error fetching Mars photos: " ++ e

/-- One near-Earth object as indexed by `NasaAsteroidTool._run`. -/
structure AsteroidT where
  name : String
  hazardous : Bool

def asteroidLine (a : AsteroidT) : String :=
  a.name ++ " (Potentially Hazardous: " ++ pyBool a.hazardous ++ ")"

/-- `NasaAsteroidTool._run`: the `near_earth_objects` dict is modelled
as an association list (date, asteroids); the tool takes the first two
dates and the first two asteroids of each. -/
def nasaAsteroidRun (outcome : Except String (List (String × List AsteroidT))) :
    String :=
  match outcome with
  | .ok data =>
    "The recent near-Earth asteroids are:\n"
      ++ String.intercalate "\n"
        (((data.take 2).map (fun p => (p.2.take 2).map asteroidLine)).flatten)
  | .error e => "Error fetching asteroid data: " ++ e

/-- One DONKI flare record (`flare.get('classType')` etc., so `Option`). -/
structure FlareT where
  classType : Option String
  peakTime : Option String

/-- `NasaSolarActivityTool._run`. -/
def nasaSolarActivityRun (outcome : Except String (List FlareT)) : String :=
  match outcome with
  | .ok arr =>
    match arr with
    | [] => "No recent solar flare data found."
    | flare :: _ =>
      "Recent solar activity: Solar flare of class " ++ optStr flare.classType
        ++ " peaked at " ++ optStr flare.peakTime ++ "."
  | .error e => "Error fetching solar activity: " ++ e

/-- `BhuvanApiTool._run`: on success it returns the raw response text;
on a `requests` exception the diagnostic names the original endpoint. -/
def bhuvanApiRun (endpoint : String) (outcome : Except String String) : String :=
  match outcome with
  | .ok text => text
  | .error e => "Bhuvan API request failed for " ++ endpoint ++ ": " ++ e

/-! Substring facts used to show the original diagnostic is retained. -/

theorem subAt_append (n t : List Char) : subAt n (n ++ t) = true := by
  induction n with
  | nil => rfl
  | cons a as ih => simp [subAt, ih]

theorem hasSub_of_subAt (n hay : List Char) (h : subAt n hay = true) :
    hasSub n hay = true := by
  cases hay with
  | nil => simpa [hasSub] using h
  | cons c cs => simp [hasSub, h]

theorem hasSub_append (p n t : List Char) : hasSub n (p ++ (n ++ t)) = true := by
  induction p with
  | nil => exact hasSub_of_subAt _ _ (subAt_append n t)
  | cons c cs ih => simp [hasSub, ih]

theorem string_data_append (a b : String) : (a ++ b).data = a.data ++ b.data := rfl

theorem pyIn_append_right (x e : String) : pyIn e (x ++ e) = true := by
  unfold pyIn
  rw [string_data_append]
  have := hasSub_append x.data e.data []
  simpa using this

/-- C2: every Provider Gateway `_run` is a total function from the
request outcome to a single result string — the `try/except` converts
every raised exception (network error, timeout, non-2xx status,
payload-parse failure, all collapsed into the `.error` outcome) into a
diagnostic result that retains the original exception text, and never
re-raises.  The exact converted form of each tool's failure result is
also fixed. -/
theorem C2_provider_failure_conversion (e endpoint : String) :
    pyIn e (nasaApodRun (.error e)) = true
  ∧ pyIn e (nasaMarsRoverRun (.error e)) = true
  ∧ pyIn e (nasaAsteroidRun (.error e)) = true
  ∧ pyIn e (nasaSolarActivityRun (.error e)) = true
  ∧ pyIn e (bhuvanApiRun endpoint (.error e)) = true
  ∧ nasaApodRun (.error e) = "Error fetching APOD: " ++ e
  ∧ nasaMarsRoverRun (.error e) = "Error fetching Mars photos: " ++ e
  ∧ nasaAsteroidRun (.error e) = "Error fetching asteroid data: " ++ e
  ∧ nasaSolarActivityRun (.error e) = "Error fetching solar activity: " ++ e
  ∧ bhuvanApiRun endpoint (.error e)
      = "Bhuvan API request failed for " ++ endpoint ++ ": " ++ e := by
  refine ⟨?_, ?_, ?_, ?_, ?_, rfl, rfl, rfl, rfl, ?_⟩
  · exact pyIn_append_right _ e
  · exact pyIn_append_right _ e
  · exact pyIn_append_right _ e
  · exact pyIn_append_right _ e
  · have h := pyIn_append_right ("Bhuvan API request failed for " ++ endpoint ++ ": ") e
    simpa [bhuvanApiRun, String.append_assoc] using h
  · rfl

/-! ## `run_astrogeo.IntelligentAstroGeo.analyze_query_intent`

An if/elif chain over the lowercased query.  Each branch's compound
keyword condition is transcribed as a named predicate; the chain
returns a single intent record (agent, data_source, reason). -/

def anyIn (terms : List String) (ql : String) : Bool := terms.any (fun t => pyIn t ql)

def isroPred (ql : String) : Bool :=
  anyIn ["bhuvan", "isro", "saphir", "ocm", "indian space", "chandrayaan", "mangalyaan"] ql

def nasaLivePred (ql : String) : Bool :=
  anyIn ["nasa picture", "apod", "today", "current nasa"] ql && !anyIn ["solar", "mars"] ql

def spaceWeatherPred (ql : String) : Bool :=
  anyIn ["solar", "space weather", "flare", "sun activity", "today", "current"] ql
    && pyIn "solar" ql

def asteroidPred (ql : String) : Bool :=
  anyIn ["asteroid", "space rock", "dangerous", "near earth"] ql

def marsPred (ql : String) : Bool :=
  anyIn ["mars", "red planet", "rover", "perseverance", "curiosity"] ql

def agencyPred (ql : String) : Bool :=
  anyIn ["nasa", "esa", "spacex"] ql && !anyIn ["picture", "today", "current"] ql

def geoTechPred (ql : String) : Bool :=
  anyIn ["satellite", "geospatial", "remote sensing", "earth observation"] ql

inductive RIntent where
  | isro_geospatial
  | nasa_live
  | space_weather
  | asteroid_tracker
  | mars_expert
  | space_agency_expert
  | geospatial_expert
  | general_space
  deriving DecidableEq, Repr

/-- The `'agent'` field of the returned dict. -/
def intentAgentStr : RIntent → String
  | .isro_geospatial => "isro_geospatial"
  | .nasa_live => "nasa_live"
  | .space_weather => "space_weather"
  | .asteroid_tracker => "asteroid_tracker"
  | .mars_expert => "mars_expert"
  | .space_agency_expert => "space_agency_expert"
  | .geospatial_expert => "geospatial_expert"
  | .general_space => "general_space"

/-- The `'data_source'` field of the returned dict. -/
def intentSourceStr : RIntent → String
  | .isro_geospatial => "vector_db"
  | .nasa_live => "nasa_api"
  | .space_weather => "nasa_api"
  | .asteroid_tracker => "nasa_api"
  | .mars_expert => "mixed"
  | .space_agency_expert => "knowledge_base"
  | .geospatial_expert => "vector_db"
  | .general_space => "knowledge_base"

/-- The `'reason'` field of the returned dict. -/
def intentReasonStr : RIntent → String
  | .isro_geospatial => "ISRO/Indian space query - checking specialized knowledge base"
  | .nasa_live => "Live NASA APOD request"
  | .space_weather => "Space weather monitoring query"
  | .asteroid_tracker => "Asteroid monitoring query"
  | .mars_expert => "Mars exploration query"
  | .space_agency_expert => "General space agency information"
  | .geospatial_expert => "Geospatial/satellite technology query"
  | .general_space => "General space knowledge query"

/-- `analyze_query_intent`: the if/elif chain of `run_astrogeo.py`. -/
def analyzeQueryIntent (q : String) : RIntent :=
  let ql := pyLower q
  if isroPred ql then .isro_geospatial
  else if nasaLivePred ql then .nasa_live
  else if spaceWeatherPred ql then .space_weather
  else if asteroidPred ql then .asteroid_tracker
  else if marsPred ql then .mars_expert
  else if agencyPred ql then .space_agency_expert
  else if geoTechPred ql then .geospatial_expert
  else .general_space

/-- The classifier restated as one ordered table of
(condition, Intent) pairs, evaluated by first match — the form the
spec's §4.2 describes, but single-label. -/
def intentTable : List ((String → Bool) × RIntent) :=
  [(isroPred, .isro_geospatial), (nasaLivePred, .nasa_live),
   (spaceWeatherPred, .space_weather), (asteroidPred, .asteroid_tracker),
   (marsPred, .mars_expert), (agencyPred, .space_agency_expert),
   (geoTechPred, .geospatial_expert)]

def classifyFirstMatch (q : String) : RIntent :=
  match intentTable.find? (fun e => e.1 (pyLower q)) with
  | some e => e.2
  | none => .general_space

/-- Counterexample to C4: the query `"isro mars rover"` satisfies both
the ISRO branch's and the Mars branch's keyword conditions, yet the
classifier's result names only `isro_geospatial` — the matching
`mars_expert` intent is not included anywhere in the returned value, so
the classifier is not multi-label. -/
theorem C4_multilabel_counterexample :
    isroPred (pyLower "isro mars rover") = true
  ∧ marsPred (pyLower "isro mars rover") = true
  ∧ analyzeQueryIntent "isro mars rover" = RIntent.isro_geospatial
  ∧ RIntent.isro_geospatial ≠ RIntent.mars_expert := by
  refine ⟨by decide, by decide, by decide, by decide⟩

/-- C4 (amended): the classifier is single-label — for every query it
returns exactly the first Intent, in the fixed evaluation order of the
keyword table, whose compound condition matches the lowercased query
(`general_space` when none matches); a later-matching Intent does not
appear in the result. -/
theorem C4_single_label_first_match (q : String) :
    analyzeQueryIntent q = classifyFirstMatch q := by
  unfold analyzeQueryIntent classifyFirstMatch intentTable
  simp only [List.find?]
  cases isroPred (pyLower q) <;>
    cases nasaLivePred (pyLower q) <;>
    cases spaceWeatherPred (pyLower q) <;>
    cases asteroidPred (pyLower q) <;>
    cases marsPred (pyLower q) <;>
    cases agencyPred (pyLower q) <;>
    cases geoTechPred (pyLower q) <;> rfl

/-! ## External calls and environments

The I/O a request can perform: one ChromaDB `collection.query`
(together with its query-embedding step) and HTTP GETs to provider
endpoints.  Each request's calls are collected in order. -/

inductive ExtCall where
  | vectorQuery (q : String) (k : Nat)
  | httpGet (endpoint : String)
  deriving DecidableEq, Repr

/-- A DONKI flare record as read via `flare.get(…)`. -/
structure FlareR where
  classType : Option String
  peakTime : Option String
  sourceLocation : Option String

/-- An APOD payload as read via `data.get(…)` in the app modules. -/
structure ApodR where
  title : Option String
  explanation : Option String
  url : Option String
  mediaType : Option String

/-- A Mars rover photo as read via `photo.get(…)` in the app modules. -/
structure MarsPhotoR where
  earthDate : Option String
  cameraFullName : Option String
  imgSrc : Option String

/-- A near-Earth object as read via
`asteroid.get('is_potentially_hazardous_asteroid', …)`. -/
structure NeoR where
  hazardous : Option Bool

/-- The per-request world of `run_astrogeo.IntelligentAstroGeo`:
whether the vector index and embedding model initialised, and what each
network round trip would yield (`.error` = raised exception). -/
structure RAEnv where
  vectorConnected : Bool
  vectorRaw : String → Nat → Except String (List String × List ℚ)
  donki : Except String (List FlareR)
  apod : Except String ApodR
  marsPhotos : Except String (List MarsPhotoR)
  neoFeed : Except String (List (List NeoR))

/-- `run_astrogeo.search_vector_db` with its `collection.query` call
recorded: no call is issued when the index is unavailable. -/
def raSearchWithCalls (env : RAEnv) (q : String) (k : Nat) :
    List Frag × List ExtCall :=
  (raSearchVectorDb env.vectorConnected (env.vectorRaw q k),
   if env.vectorConnected then [.vectorQuery q k] else [])

def pyStartsWith (pre s : String) : Bool := subAt pre.data s.data

/-- Python `str(n)` for the f-string counters. -/
def natStr (n : Nat) : String := toString n

/-- `enumerate(xs, 1)`-style rendering: `f i x` for each element. -/
def numberedMap {α : Type} (f : Nat → α → String) : Nat → List α → String
  | _, [] => ""
  | i, x :: xs => f i x ++ numberedMap f (i + 1) xs

/-! ### `run_astrogeo.get_nasa_live_data` -/

def raSolarCalm : String :=
  "☀️ **Solar Weather Report**: The Sun is currently in a calm phase with no significant solar flare activity detected. This is completely normal - our star has quiet periods between active cycles!"

/-- The intensity description / impact pair chosen from
`flare_class.startswith(…)`. -/
def raFlareIntensity (flareClass : String) : String × String :=
  if pyStartsWith "X" flareClass then
    ("🔥 **Major Solar Flare**",
     "This is a powerful flare that can affect satellite communications and create spectacular auroras!")
  else if pyStartsWith "M" flareClass then
    ("⚡ **Moderate Solar Flare**",
     "This medium-strength flare might cause minor radio disruptions and enhance aurora displays.")
  else if pyStartsWith "C" flareClass then
    ("✨ **Minor Solar Flare**",
     "This is a small flare with minimal Earth impact, but scientifically interesting!")
  else
    ("🌟 **Solar Activity Detected**", "The Sun released energy in our direction.")

def raSolarText (flares : List FlareR) : String :=
  match flares with
  | [] => raSolarCalm
  | flare :: _ =>
    let flareClass := flare.classType.getD "Unknown"
    let peakTime := flare.peakTime.getD "Unknown"
    let source := flare.sourceLocation.getD "Unknown"
    let d := raFlareIntensity flareClass
    "☀️ **Live Solar Activity Report**:\n\n" ++ d.1 ++ " (Class " ++ flareClass
      ++ ")\n**When**: " ++ peakTime ++ "\n**Location**: " ++ source
      ++ " on the Sun's surface\n\n**What this means**: " ++ d.2
      ++ "\n\n**Space Weather Impact**: NASA continuously monitors solar activity to protect astronauts, satellites, and power grids on Earth. Solar flares are a natural part of our Sun's 11-year activity cycle."

def raApodText (d : ApodR) : String :=
  let title := d.title.getD "Unknown"
  let explanation := d.explanation.getD "No description available"
  let url := d.url.getD ""
  let mediaType := d.mediaType.getD "image"
  let base := "🌟 **Today's NASA Space Highlight**: " ++ title ++ "\n\n"
  let mid :=
    if explanation ≠ "" ∧ 200 < explanation.data.length then
      let sentences := explanation.splitOn ". "
      let first := "**What you're seeing**: " ++ sentences.headD "" ++ ".\n\n"
      if 1 < sentences.length then
        first ++ "**Fascinating details**: " ++ sentences.getD 1 "" ++ ".\n\n"
      else first
    else "**About this cosmic wonder**: " ++ explanation ++ "\n\n"
  let tl :=
    if mediaType = "video" then "🎥 **Watch the video**: " ++ url
    else "🖼️ **View full resolution image**: " ++ url
  base ++ mid ++ tl

def raMarsPhotoBlock (i : Nat) (p : MarsPhotoR) : String :=
  "**Photo " ++ natStr i ++ "**: " ++ p.earthDate.getD "Unknown"
    ++ "\n**Camera**: " ++ p.cameraFullName.getD "Unknown camera"
    ++ "\n**Image**: " ++ p.imgSrc.getD "" ++ "\n\n"

def raMarsText (photos : List MarsPhotoR) : String :=
  if photos.isEmpty then
    "🔴 **Mars Rover Update**: Curiosity hasn't taken photos on this Martian day. Mars rovers are busy with science experiments and don't photograph every day!"
  else
    "🔴 **Live from Mars - Curiosity Rover Photos**:\n\n"
      ++ numberedMap raMarsPhotoBlock 1 (photos.take 3)
      ++ "🤖 **Rover Status**: Curiosity continues exploring Mars, analyzing rocks and soil to understand the Red Planet's history!"

def raAsteroidText (neo : List (List NeoR)) : String :=
  let total := (neo.map List.length).sum
  let hazardous :=
    (neo.map (fun l => (l.filter (fun a => a.hazardous.getD false)).length)).sum
  let base := "🌌 **Live Asteroid Tracking**: NASA is currently monitoring **"
    ++ natStr total ++ " near-Earth asteroids**.\n\n"
  let mid :=
    if 0 < hazardous then
      "⚠️ **" ++ natStr hazardous
        ++ " are classified as potentially hazardous** - but don't worry! This just means they're large enough and close enough that we monitor them carefully.\n\n"
    else
      "✅ **Good news!** None of the currently tracked asteroids pose any threat to Earth.\n\n"
  base ++ mid
    ++ "🛡️ **Earth's Defense**: NASA's Planetary Defense team continuously scans the skies to protect our planet!"

def nasaFetchError (e : String) : String :=
  "❌ Unable to fetch live NASA data: " ++ e

/-- `run_astrogeo.get_nasa_live_data` over the lowered query:
each reached branch performs exactly one HTTP GET, whose outcome the
environment supplies; a raised exception is converted by the
function-level `try/except`. -/
def raNasaLiveData (env : RAEnv) (ql : String) : String × List ExtCall :=
  if anyIn ["solar", "space weather", "flare", "sun"] ql then
    match env.donki with
    | .error e => (nasaFetchError e, [.httpGet "https://api.nasa.gov/DONKI/FLR"])
    | .ok flares => (raSolarText flares, [.httpGet "https://api.nasa.gov/DONKI/FLR"])
  else if anyIn ["apod", "picture", "image", "photo"] ql && !pyIn "mars" ql then
    match env.apod with
    | .error e => (nasaFetchError e, [.httpGet "https://api.nasa.gov/planetary/apod"])
    | .ok d => (raApodText d, [.httpGet "https://api.nasa.gov/planetary/apod"])
  else if pyIn "mars" ql && anyIn ["photo", "image", "rover", "picture"] ql then
    match env.marsPhotos with
    | .error e =>
      (nasaFetchError e,
       [.httpGet "https://api.nasa.gov/mars-photos/api/v1/rovers/curiosity/photos"])
    | .ok photos =>
      (raMarsText photos,
       [.httpGet "https://api.nasa.gov/mars-photos/api/v1/rovers/curiosity/photos"])
  else if anyIn ["asteroid", "space rock", "dangerous", "near earth"] ql then
    match env.neoFeed with
    | .error e => (nasaFetchError e, [.httpGet "https://api.nasa.gov/neo/rest/v1/feed"])
    | .ok neo => (raAsteroidText neo, [.httpGet "https://api.nasa.gov/neo/rest/v1/feed"])
  else
    ("Live NASA data is available! Please specify what you'd like: today's space picture, solar activity, Mars rover photos, or asteroid tracking.", [])

/-! ### `run_astrogeo.process_isro_bhuvan_query` and the static knowledge -/

def raIsroKeywordHit (results : List Frag) : Bool :=
  results.any (fun r =>
    pyIn "bhuvan" (pyLower r.content) || pyIn "saphir" (pyLower r.content)
      || pyIn "ocm" (pyLower r.content))

def raIsroBlock (i : Nat) (f : Frag) : String :=
  "**" ++ natStr i ++ ".** " ++ pyTruncate 200 (pyStrip f.content) ++ "\n\n"

def raBhuvanContext (q : String) : String :=
  if pyIn "bhuvan" (pyLower q) then
    "**About Bhuvan**: Bhuvan is ISRO's geoportal providing satellite imagery and geospatial services. It includes various instruments like SAPHIR for atmospheric profiling and OCM for ocean color monitoring."
  else ""

def raBhuvanFallback : String :=
  "🇮🇳 **Bhuvan - ISRO's Geospatial Platform**\n\n**Bhuvan** is India's geoportal developed by ISRO (Indian Space Research Organisation) that provides satellite imagery and geospatial services.\n\n**Key Features**:\n• **Satellite Imagery**: High-resolution images of India and the world\n• **Thematic Services**: Land use, urban planning, disaster management\n• **APIs**: For developers to integrate geospatial data\n• **Mobile Apps**: Bhuvan for citizen services\n\n**Instruments & Data**:\n• **SAPHIR**: Atmospheric humidity profiling instrument\n• **OCM (Ocean Colour Monitor)**: Marine and coastal monitoring\n• **Cartosat**: High-resolution earth imaging\n• **ResourceSat**: Natural resource monitoring\n\n**Applications**: Agriculture, water resources, forestry, urban planning, and disaster management.\n\n*Your vector database contains technical details about specific SAPHIR and OCM data processing methods.*"

def raIsroFallback (q : String) : String :=
  if pyIn "bhuvan" (pyLower q) then raBhuvanFallback
  else "Please specify what aspect of ISRO or Bhuvan you'd like to know about."

/-- `run_astrogeo.process_isro_bhuvan_query`: vector search (k = 5),
then either the knowledge-base rendering (when a result mentions
bhuvan/saphir/ocm) or the static fallback. -/
def raIsroBhuvanQuery (env : RAEnv) (q : String) : String × List ExtCall :=
  let r := raSearchWithCalls env q 5
  if !r.1.isEmpty && raIsroKeywordHit r.1 then
    ("🇮🇳 **ISRO/Bhuvan Intelligence** (from specialized knowledge base):\n\n"
       ++ numberedMap raIsroBlock 1 (r.1.take 3) ++ raBhuvanContext q, r.2)
  else (raIsroFallback q, r.2)

def raNasaKnowledge : String :=
  "🚀 **NASA - America's Space Agency**\n\nNASA has been exploring space since 1958! Current major projects include:\n• **Artemis Program**: Taking humans back to the Moon by 2026\n• **Mars Exploration**: Multiple rovers studying the Red Planet  \n• **James Webb Telescope**: Revolutionary deep space observations\n• **International Space Station**: Continuous human presence in orbit\n\n**Recent Achievements**: Successfully landed Perseverance rover on Mars, launched James Webb telescope, and preparing for human lunar missions.\n\nNASA's missions help us understand our universe and develop technologies that benefit life on Earth!"

def raMarsKnowledge : String :=
  "🔴 **Mars - The Red Planet**\n\nMars fascinates scientists because it's the most Earth-like planet in our solar system!\n\n**Key Facts**:\n• About half the size of Earth\n• Day is 24 hours 37 minutes (similar to Earth!)\n• Has seasons like Earth due to tilted axis\n• Evidence of ancient rivers and lakes\n• Two small moons: Phobos and Deimos\n\n**Current Exploration**: NASA's Perseverance and Curiosity rovers are actively exploring, searching for signs of ancient microbial life and studying Martian geology."

def raUniverseKnowledge : String :=
  "🌌 **The Amazing Universe**\n\nSpace is full of incredible wonders:\n• **Our Solar System**: 8 planets, over 200 moons, and countless asteroids\n• **The Sun**: A middle-aged star that powers all life on Earth\n• **Exoplanets**: Over 5,000 confirmed planets orbiting other stars\n• **Galaxies**: Billions of galaxies, each with billions of stars\n\n**Current Discoveries**: We're finding potentially habitable worlds, studying black holes, and even detecting gravitational waves from cosmic collisions!\n\nAsk me about specific topics like NASA missions, Mars exploration, or space agencies!"

/-- `run_astrogeo.get_general_space_knowledge`. -/
def raGeneralKnowledge (ql : String) : String :=
  if pyIn "nasa" ql then raNasaKnowledge
  else if pyIn "mars" ql then raMarsKnowledge
  else raUniverseKnowledge

/-! ### `run_astrogeo.process_query` -/

def raGreeting : String :=
  "Hi! I'm AstroGeo, your intelligent space assistant. I can access live NASA data, search specialized knowledge bases, and provide expert analysis on space topics!"

def raHeader (q : String) (it : RIntent) : String :=
  "🧠 **AstroGeo Intelligent Analysis**\n\n**Query**: " ++ q
    ++ "\n**Detected Intent**: " ++ intentReasonStr it
    ++ "\n**Agent**: " ++ intentAgentStr it
    ++ "\n**Data Source**: " ++ intentSourceStr it ++ "\n\n"

def raVectorBlock (i : Nat) (f : Frag) : String :=
  "**" ++ natStr i ++ ".** " ++ pyTruncate 300 f.content ++ "\n\n"

/-- `run_astrogeo.IntelligentAstroGeo.process_query(query, use_nasa_api)`:
the full per-request pipeline, returning the rendered response string
and the external calls performed. -/
def raProcessQuery (q : String) (useNasaApi : Bool) (env : RAEnv) :
    String × List ExtCall :=
  if pyStrip q = "" then (raGreeting, [])
  else
    let it := analyzeQueryIntent q
    let pre := raHeader q it
    if it = .isro_geospatial then
      let r := raIsroBhuvanQuery env q
      (pre ++ r.1, r.2)
    else if (it = .nasa_live || it = .space_weather || it = .asteroid_tracker)
        && useNasaApi then
      let r := raNasaLiveData env (pyLower q)
      (pre ++ "📡 **Live NASA Data**:\n\n" ++ r.1, r.2)
    else if it = .mars_expert then
      if useNasaApi && anyIn ["photo", "image", "picture"] (pyLower q) then
        let r := raNasaLiveData env (pyLower q)
        (pre ++ "📡 **Live Mars Data**:\n\n" ++ r.1, r.2)
      else
        (pre ++ "🔴 **Mars Expert Analysis**:\n\n" ++ raGeneralKnowledge (pyLower q), [])
    else if intentSourceStr it = "vector_db" then
      let r := raSearchWithCalls env q 3
      if !r.1.isEmpty then
        (pre ++ "📚 **From Specialized Knowledge Base**:\n\n"
           ++ numberedMap raVectorBlock 1 (r.1.take 2), r.2)
      else
        (pre ++ "No specific information found in knowledge base. Providing general knowledge:\n\n"
           ++ raGeneralKnowledge (pyLower q), r.2)
    else
      (pre ++ "📖 **Space Knowledge**:\n\n" ++ raGeneralKnowledge (pyLower q), [])

/-! ## `multi_agent_astrogeo.py`: router, agents, system -/

/-- `QueryRouter.space_keywords`. -/
def spaceKeywords : List String :=
  ["space", "astronomy", "planet", "star", "galaxy", "nasa", "isro", "esa",
   "satellite", "rocket", "mars", "moon", "sun", "solar", "asteroid",
   "comet", "telescope", "rover", "spacecraft", "orbit", "mission",
   "apollo", "chandrayaan", "bhuvan", "saphir", "ocm", "cosmic",
   "universe", "celestial", "nebula", "meteor", "spacex", "apod"]

/-- `QueryRouter.is_space_query`. -/
def isSpaceQuery (q : String) : Bool :=
  spaceKeywords.any (fun k => pyIn k (pyLower q))

/-- `QueryRouter.identify_non_space_domain`. -/
def identifyNonSpaceDomain (q : String) : String :=
  let ql := pyLower q
  if anyIn ["weather in", "temperature in", "climate in"] ql then "weather/climate"
  else if anyIn ["news", "current events"] ql then "news"
  else if anyIn ["movie", "film", "entertainment"] ql then "entertainment"
  else if anyIn ["food", "restaurant", "recipe"] ql then "food/dining"
  else if anyIn ["travel", "hotel", "flight"] ql then "travel"
  else "general information"

inductive AgentId where
  | isroGeo
  | nasaLive
  | spaceWeather
  | geoSpatial
  deriving DecidableEq, Repr

def agentName : AgentId → String
  | .isroGeo => "ISRO Geospatial Expert"
  | .nasaLive => "NASA Live Data Specialist"
  | .spaceWeather => "Space Weather Monitor"
  | .geoSpatial => "Geospatial Intelligence Expert"

def agentRole : AgentId → String
  | .isroGeo => "Specialist in ISRO missions, Bhuvan platform, and Indian space technology"
  | .nasaLive => "Real-time NASA data access and analysis"
  | .spaceWeather => "Space weather analysis and Earth impact assessment"
  | .geoSpatial => "Satellite imagery and Earth observation analysis"

/-- Each agent's `can_handle`. -/
def canHandle : AgentId → String → Bool
  | .isroGeo, q =>
    anyIn ["isro", "bhuvan", "saphir", "ocm", "chandrayaan", "mangalyaan",
      "indian space", "aryabhatta"] (pyLower q)
  | .nasaLive, q =>
    anyIn ["today", "current", "now", "recent", "live", "latest"] (pyLower q)
      && anyIn ["nasa", "apod", "picture", "mars rover", "solar", "asteroid"] (pyLower q)
  | .spaceWeather, q =>
    anyIn ["space weather", "solar wind", "geomagnetic", "aurora", "solar storm"] (pyLower q)
  | .geoSpatial, q =>
    anyIn ["satellite", "imagery", "remote sensing", "gis", "earth observation",
      "landsat", "sentinel"] (pyLower q)

/-- The order the system's agent list is built in
(`IntelligentAstroGeoSystem.__init__`). -/
def agentOrder : List AgentId := [.isroGeo, .nasaLive, .spaceWeather, .geoSpatial]

/-- The router's result dict `{'agent', 'message', 'suggestions'}`. -/
structure RouteRes where
  agent : Option AgentId
  message : Option String
  suggestions : List String
  deriving DecidableEq, Repr

def nonSpaceSuggestions : List String :=
  ["What's today's NASA picture?", "Tell me about ISRO missions",
   "Current solar activity", "Mars exploration updates"]

def defaultSpaceSuggestions : List String :=
  ["What is the International Space Station?", "Tell me about Mars rovers",
   "ISRO's recent achievements", "Current space missions"]

/-- The off-topic redirect message (mentions the identified domain). -/
def nonSpaceMessage (q : String) : String :=
  "🤖 I'm AstroGeo, specialized in space and astronomy topics. Your query appears to be about "
    ++ identifyNonSpaceDomain q
    ++ ". Please ask me about space agencies, planets, satellites, missions, or astronomical phenomena!"

def defaultSpaceMessage : String :=
  "🌌 I can help with space topics! Try asking about specific space agencies (NASA, ISRO), planets, missions, or current space events."

/-- `QueryRouter.route_query`: non-space queries get the redirect
(`agent = None`); space queries go to the first agent whose
`can_handle` accepts, else to the default space message. -/
def routeQuery (q : String) : RouteRes :=
  if !isSpaceQuery q then ⟨none, some (nonSpaceMessage q), nonSpaceSuggestions⟩
  else
    match agentOrder.find? (fun a => canHandle a q) with
    | some a => ⟨some a, none, []⟩
    | none => ⟨none, some defaultSpaceMessage, defaultSpaceSuggestions⟩

/-- The per-request world of `multi_agent_astrogeo`:
`vectorConnected` is whether `_initialize_vector_db` produced a store. -/
structure MAEnv where
  vectorConnected : Bool
  vectorRaw : String → Nat → Except String (List String × List ℚ)
  donki : Except String (List FlareR)
  apod : Except String ApodR
  marsPhotos : Except String (List MarsPhotoR)
  neoFeed : Except String (List (List NeoR))

/-- `IntelligentAstroGeoSystem.search_vector_db` plus the inner
`VectorStore.search_vector_db` (threshold 0.3): the inner search has
**no** `try/except`, so a raised exception propagates (`.error`);
with no store the wrapper returns `[]` without any call. -/
def maSystemSearch (env : MAEnv) (q : String) (k : Nat) :
    Except String (List Frag) × List ExtCall :=
  if env.vectorConnected then
    match env.vectorRaw q k with
    | .error e => (.error e, [.vectorQuery q k])
    | .ok (docs, dists) =>
      if chromaIndexError docs dists then
        (.error "list index out of range", [.vectorQuery q k])
      else (.ok (collectDocs ((3 : ℚ)/10) dists docs 0), [.vectorQuery q k])
  else (.ok [], [])

/-! ### The ISRO geospatial agent (`ISROGeospatialAgent.process`) -/

def maIsroBlock (i : Nat) (f : Frag) : String :=
  "**" ++ natStr i ++ ".** " ++ pyTruncate 250 f.content ++ "\n\n"

def maBhuvanNote : String :=
  "**About Bhuvan**: India's geoportal developed by ISRO for satellite imagery and geospatial services, supporting applications in agriculture, disaster management, and urban planning."

def maIsroResponse (q : String) (results : List Frag) : String :=
  "🇮🇳 **ISRO Geospatial Expert Analysis**:\n\n"
    ++ numberedMap maIsroBlock 1 (results.take 3)
    ++ (if pyIn "bhuvan" (pyLower q) then maBhuvanNote else "")

def maBhuvanFallback : String :=
  "🇮🇳 **ISRO Bhuvan Platform**:\n\n**Bhuvan** is India's comprehensive geospatial platform providing:\n• High-resolution satellite imagery of India and global locations\n• Thematic mapping for agriculture, forestry, and urban planning\n• Disaster management and emergency response capabilities\n• APIs for developers and government services\n• Mobile applications for citizen services\n\n**Key Instruments**:\n• **SAPHIR**: Atmospheric humidity profiling\n• **OCM**: Ocean color monitoring for marine studies\n• **Cartosat series**: High-resolution Earth imaging\n• **ResourceSat**: Natural resource monitoring"

def maIsroOrgFallback : String :=
  "🇮🇳 **ISRO - Indian Space Research Organisation**:\n\n**Established**: 1969, Headquarters: Bengaluru\n\n**Major Achievements**:\n• **Chandrayaan-3**: First successful lunar south pole landing (2023)\n• **Mangalyaan**: Mars orbit mission for just $74 million\n• **Record Launch**: 104 satellites in single mission (2017)\n• **Aryabhatta**: India's first satellite (1975)\n\n**Current Programs**:\n• **Gaganyaan**: Human spaceflight mission\n• **Aditya-L1**: Solar observation mission\n• **Shukrayaan**: Planned Venus mission"

/-- `ISROGeospatialAgent._get_fallback_knowledge`. -/
def maIsroFallback (q : String) : String :=
  if pyIn "bhuvan" (pyLower q) then maBhuvanFallback
  else if pyIn "isro" (pyLower q) then maIsroOrgFallback
  else "Please specify which aspect of ISRO or Bhuvan you'd like to know about."

/-- `ISROGeospatialAgent.process`: searches the vector store (k = 5);
a raised search exception propagates to `process_query`'s handler. -/
def maIsroProcess (env : MAEnv) (q : String) :
    Except String String × List ExtCall :=
  match maSystemSearch env q 5 with
  | (.error e, calls) => (.error e, calls)
  | (.ok results, calls) =>
    if !results.isEmpty
        && results.any (fun r => anyIn ["isro", "bhuvan", "saphir", "ocm"] (pyLower r.content)) then
      (.ok (maIsroResponse q results), calls)
    else (.ok (maIsroFallback q), calls)

/-! ### The NASA live-data agent (`NASALiveDataAgent.process`) -/

def maIntensity (flareClass : String) : String × String :=
  let key := match flareClass.data with
    | [] => 'C'
    | c :: _ => c
  if key = 'X' then
    ("🔥 **Major Solar Flare**", "Can affect satellites and create spectacular auroras!")
  else if key = 'M' then
    ("⚡ **Moderate Solar Flare**", "May cause minor radio disruptions and enhance auroras.")
  else if key = 'C' then
    ("✨ **Minor Solar Flare**", "Minimal Earth impact but scientifically interesting!")
  else ("🌟 **Solar Activity**", "Energy release detected.")

def maSolarText (flares : List FlareR) : String :=
  match flares with
  | [] => "☀️ **Solar Status**: The Sun is currently calm with no major flare activity - completely normal!"
  | flare :: _ =>
    let flareClass := flare.classType.getD "Unknown"
    let peakTime := flare.peakTime.getD "Unknown"
    let d := maIntensity flareClass
    "☀️ **Live Solar Weather**:\n" ++ d.1 ++ " (Class " ++ flareClass
      ++ ")\n**Peak Time**: " ++ peakTime ++ "\n**Impact**: " ++ d.2
      ++ "\n**Status**: Continuously monitored by NASA for space weather alerts."

def maApodText (d : ApodR) : String :=
  "🌟 **Today's Space Highlight**: " ++ d.title.getD "Unknown"
    ++ "\n**About**: " ++ pyTruncate 200 (d.explanation.getD "")
    ++ "\n**View**: " ++ d.url.getD ""

def maMarsPhotoBlock (i : Nat) (p : MarsPhotoR) : String :=
  "**Photo " ++ natStr i ++ "**: " ++ optStr p.earthDate ++ " - "
    ++ p.cameraFullName.getD "Unknown" ++ "\n" ++ p.imgSrc.getD "" ++ "\n\n"

def maMarsText (photos : List MarsPhotoR) : String :=
  if photos.isEmpty then
    "🔴 **Mars Update**: Curiosity is busy with science - no photos from this sol!"
  else "🔴 **Live from Mars**:\n" ++ numberedMap maMarsPhotoBlock 1 (photos.take 2)

def maAsteroidText (neo : List (List NeoR)) : String :=
  let total := (neo.map List.length).sum
  let hazardous :=
    (neo.map (fun l => (l.filter (fun a => a.hazardous.getD false)).length)).sum
  "🌌 **Asteroid Watch**: Tracking " ++ natStr total ++ " near-Earth objects\n"
    ++ (if 0 < hazardous then "⚠️" else "✅") ++ " **Hazardous**: " ++ natStr hazardous
    ++ " (closely monitored)\n🛡️ **Defense**: NASA's planetary defense systems active"

/-- `NASALiveDataAgent.process`: one branch per data kind, each making
one GET; its own `try/except` converts any raised exception, so this
agent never raises into `process_query`. -/
def maNasaProcess (env : MAEnv) (q : String) : String × List ExtCall :=
  let ql := pyLower q
  let header := "📡 **NASA Live Data Specialist Report**:\n\n"
  if anyIn ["solar", "space weather", "flare", "sun"] ql then
    match env.donki with
    | .error e => (nasaFetchError e, [.httpGet "https://api.nasa.gov/DONKI/FLR"])
    | .ok flares => (header ++ maSolarText flares, [.httpGet "https://api.nasa.gov/DONKI/FLR"])
  else if anyIn ["apod", "picture", "image"] ql && !pyIn "mars" ql then
    match env.apod with
    | .error e => (nasaFetchError e, [.httpGet "https://api.nasa.gov/planetary/apod"])
    | .ok d => (header ++ maApodText d, [.httpGet "https://api.nasa.gov/planetary/apod"])
  else if pyIn "mars" ql && anyIn ["rover", "photo", "image"] ql then
    match env.marsPhotos with
    | .error e =>
      (nasaFetchError e,
       [.httpGet "https://api.nasa.gov/mars-photos/api/v1/rovers/curiosity/photos"])
    | .ok photos =>
      (header ++ maMarsText photos,
       [.httpGet "https://api.nasa.gov/mars-photos/api/v1/rovers/curiosity/photos"])
  else if anyIn ["asteroid", "space rock"] ql then
    match env.neoFeed with
    | .error e => (nasaFetchError e, [.httpGet "https://api.nasa.gov/neo/rest/v1/feed"])
    | .ok neo => (header ++ maAsteroidText neo, [.httpGet "https://api.nasa.gov/neo/rest/v1/feed"])
  else
    (header ++ "I can provide live data on: Solar activity, NASA's daily space picture, Mars rover photos, or asteroid tracking. Please specify!", [])

/-! ### The two static agents and the system pipeline -/

def maSpaceWeatherReply : String :=
  "☀️ **Space Weather Monitor**: Space weather analysis with solar activity monitoring, geomagnetic storm tracking, and satellite impact assessment."

def maGeoSpatialReply : String :=
  "🛰️ **Geospatial Intelligence Expert**: Satellite imagery analysis, remote sensing data processing, and environmental monitoring using advanced GIS techniques."

/-- `agent.process(query)` for each agent: only the ISRO agent can
raise (through the unguarded vector search). -/
def maAgentRun (a : AgentId) (env : MAEnv) (q : String) :
    Except String String × List ExtCall :=
  match a with
  | .isroGeo => maIsroProcess env q
  | .nasaLive =>
    let r := maNasaProcess env q
    (.ok r.1, r.2)
  | .spaceWeather => (.ok maSpaceWeatherReply, [])
  | .geoSpatial => (.ok maGeoSpatialReply, [])

def maWelcome : String :=
  "🤖 **Welcome to AstroGeo!**\n\nI'm your intelligent space assistant with specialized agents for:\n• 🇮🇳 **ISRO & Bhuvan**: Indian space missions and geospatial data\n• 📡 **NASA Live Data**: Real-time space information\n• ☀️ **Space Weather**: Solar activity and space environment\n• 🛰️ **Geospatial Intelligence**: Satellite imagery and Earth observation\n\nAsk me anything about space, astronomy, or space agencies!"

def maHeader (q : String) : String :=
  "🧠 **AstroGeo Multi-Agent Analysis**\n\n**Your Query**: " ++ q ++ "\n\n"

/-- The `if routing_result['suggestions']:` block. -/
def maSuggestionsBlock (l : List String) : String :=
  if l.isEmpty then ""
  else "\n\n**🎯 Try these space topics instead:**\n"
    ++ String.join (l.map (fun s => "• " ++ s ++ "\n"))

def maSystemError (e : String) : String :=
  "❌ System Error: " ++ e ++ "\n\nPlease try rephrasing your space-related query!"

/-- `IntelligentAstroGeoSystem.process_query(query, use_nasa_api)`:
blank queries short-circuit to the welcome text; otherwise the query
is routed, and either the redirect (with suggestions) or the selected
agent's output is appended to the analysis header.  A raised agent
exception is converted by the surrounding `try/except`.
(`use_nasa_api` is accepted but never read by the Python body.) -/
def maProcessQuery (q : String) (useNasaApi : Bool) (env : MAEnv) :
    String × List ExtCall :=
  if pyStrip q = "" then (maWelcome, [])
  else
    match routeQuery q with
    | ⟨none, msg, suggestions⟩ =>
      (maHeader q ++ msg.getD "" ++ maSuggestionsBlock suggestions, [])
    | ⟨some a, _, _⟩ =>
      let pre := maHeader q ++ "**Assigned Agent**: " ++ agentName a
        ++ "\n**Agent Role**: " ++ agentRole a ++ "\n\n"
      match maAgentRun a env q with
      | (.ok txt, calls) => (pre ++ txt, calls)
      | (.error e, calls) => (maSystemError e, calls)

/-! ## Claims about the aggregator pipelines -/

theorem str_append_ne_empty (a b : String) (h : a ≠ "") : a ++ b ≠ "" := by
  intro hab
  apply h
  have h1 : a.data ++ b.data = [] := congrArg String.data hab
  have h2 : a.data = [] := (List.append_eq_nil.mp h1).1
  show a = ""
  calc a = String.mk a.data := rfl
    _ = String.mk [] := by rw [h2]
    _ = "" := rfl

/-- C1: for every input query — empty, pure whitespace or gibberish —
both `process_query` pipelines return normally with a non-empty
response (the welcome prompt, the redirect section, an agent/knowledge
section, or the converted failure section); the engine never returns
an empty result, and the only failure-mode output (`❌ System Error:`
/ `❌ Unable to fetch…`) is itself part of the returned response. -/
theorem C1_never_empty_response (q : String) (b : Bool) (env : MAEnv) (env2 : RAEnv) :
    (maProcessQuery q b env).1 ≠ "" ∧ (raProcessQuery q b env2).1 ≠ "" := by
  constructor
  · unfold maProcessQuery
    split
    · decide
    · split
      · dsimp only
        repeat' apply str_append_ne_empty
        decide
      · dsimp only
        split
        · dsimp only
          repeat' apply str_append_ne_empty
          decide
        · dsimp only
          unfold maSystemError
          repeat' apply str_append_ne_empty
          decide
  · unfold raProcessQuery
    split
    · decide
    · dsimp only
      repeat' split
      all_goals dsimp only
      all_goals repeat' apply str_append_ne_empty
      all_goals decide

/-- C3: a query containing none of the router's domain keywords is
classified as off-topic: `route_query` returns the no-agent redirect
sentinel, and `process_query` issues zero Semantic Retriever calls and
zero Provider Gateway calls, returning (when the query is non-blank)
exactly the one redirect section with its suggestions. -/
theorem C3_no_keyword_redirect (q : String) (h : isSpaceQuery q = false) :
    routeQuery q = ⟨none, some (nonSpaceMessage q), nonSpaceSuggestions⟩
  ∧ (∀ (b : Bool) (env : MAEnv), (maProcessQuery q b env).2 = [])
  ∧ (∀ (b : Bool) (env : MAEnv), pyStrip q ≠ "" →
      maProcessQuery q b env
        = (maHeader q ++ nonSpaceMessage q ++ maSuggestionsBlock nonSpaceSuggestions, [])) := by
  have hroute : routeQuery q = ⟨none, some (nonSpaceMessage q), nonSpaceSuggestions⟩ := by
    unfold routeQuery
    rw [h]
    rfl
  refine ⟨hroute, ?_, ?_⟩
  · intro b env
    unfold maProcessQuery
    split
    · rfl
    · rw [hroute]
  · intro b env hq
    unfold maProcessQuery
    rw [if_neg hq, hroute]
    rfl

/-- The concrete environment used by witnesses: no vector store, calm
provider worlds. -/
def envTrivialMA : MAEnv :=
  { vectorConnected := false
    vectorRaw := fun _ _ => .ok ([], [])
    donki := .ok []
    apod := .ok ⟨none, none, none, none⟩
    marsPhotos := .ok []
    neoFeed := .ok [] }

def envTrivialRA : RAEnv :=
  { vectorConnected := false
    vectorRaw := fun _ _ => .ok ([], [])
    donki := .ok []
    apod := .ok ⟨none, none, none, none⟩
    marsPhotos := .ok []
    neoFeed := .ok [] }

/-- Witness for C3 at the spec's own example, `"best pizza recipe"`. -/
theorem C3_no_keyword_redirect_witness :
    routeQuery "best pizza recipe"
      = ⟨none, some (nonSpaceMessage "best pizza recipe"), nonSpaceSuggestions⟩
  ∧ (maProcessQuery "best pizza recipe" true envTrivialMA).2 = []
  ∧ maProcessQuery "best pizza recipe" true envTrivialMA
      = (maHeader "best pizza recipe" ++ nonSpaceMessage "best pizza recipe"
          ++ maSuggestionsBlock nonSpaceSuggestions, []) := by
  have h := C3_no_keyword_redirect "best pizza recipe" (by decide)
  exact ⟨h.1, h.2.1 true envTrivialMA, h.2.2 true envTrivialMA (by decide)⟩

/-- C9: a query whose whitespace-stripped text is empty short-circuits
both `process_query` pipelines: the returned response is the fixed
static welcome/prompt message, and no intent classification result is
used, no vector-database search and no provider call is performed
(the call list is empty). -/
theorem C9_blank_query_shortcircuit (q : String) (h : pyStrip q = "") :
    (∀ (b : Bool) (env : MAEnv), maProcessQuery q b env = (maWelcome, []))
  ∧ (∀ (b : Bool) (env : RAEnv), raProcessQuery q b env = (raGreeting, [])) := by
  constructor
  · intro b env
    unfold maProcessQuery
    rw [if_pos h]
  · intro b env
    unfold raProcessQuery
    rw [if_pos h]

/-- Witness for C9 at the concrete pure-whitespace query `"   "`. -/
theorem C9_blank_query_shortcircuit_witness :
    maProcessQuery "   " true envTrivialMA = (maWelcome, [])
  ∧ raProcessQuery "   " false envTrivialRA = (raGreeting, []) := by
  have h := C9_blank_query_shortcircuit "   " (by decide)
  exact ⟨h.1 true envTrivialMA, h.2 false envTrivialRA⟩

/-! ## Location extraction (`tools/weather_api.py`, `main_backup.py`,
`frontend/gradio_app.py`)

The Python surface patterns are regexes; they are modelled here by
direct scanners over `List Char` with the same semantics on the ASCII
text the program handles:
* `\b` before a word-start is "previous character absent or not a word
  character";
* `\s+` before a letter class consumes the maximal whitespace run;
* a lazy group `([a-zA-Z][a-zA-Z\s,-]+?)` (or `{2,}?`) takes the
  shortest extension, of at least the mandatory length, after which the
  terminator alternation matches;
* `$` is end of input (the queries carry no trailing newline);
* `re.search` returns the match at the leftmost feasible start;
  `re.findall` collects non-overlapping matches left to right. -/

/-- The character class `[a-zA-Z\s,-]` of the location-capture groups. -/
def isClassC (c : Char) : Bool := isAlphaC c || isWsC c || c = ',' || c = '-'

/-- Case-insensitive literal match at the head (pattern letters are
lowercase), returning the rest. -/
def matchCI : List Char → List Char → Option (List Char)
  | [], l => some l
  | _ :: _, [] => none
  | n :: ns, c :: cs => if Char.toLower c = n then matchCI ns cs else none

/-- Case-sensitive literal match at the head, returning the rest. -/
def matchCS : List Char → List Char → Option (List Char)
  | [], l => some l
  | _ :: _, [] => none
  | n :: ns, c :: cs => if c = n then matchCS ns cs else none

def matchKw (ci : Bool) (kw l : List Char) : Option (List Char) :=
  if ci then matchCI kw l else matchCS kw l

/-- After the first consumed whitespace: more whitespace and then one
of the alternation's words (case-insensitively). -/
def wsThenWordAux (ws : List (List Char)) : List Char → Bool
  | [] => ws.any (fun w => (matchCI w []).isSome)
  | c :: cs =>
    ws.any (fun w => (matchCI w (c :: cs)).isSome) || (isWsC c && wsThenWordAux ws cs)

/-- `\s+(?:w₁|w₂|…)`: at least one whitespace, then one of the words. -/
def wsThenAnyWord (ws : List (List Char)) : List Char → Bool
  | [] => false
  | c :: cs => isWsC c && wsThenWordAux ws cs

/-- Terminator of weather patterns 1–2: `(?:\s+including|\s+with|\?|$)`. -/
def waTerm (l : List Char) : Bool :=
  wsThenAnyWord ["including".data, "with".data] l
    || (match l with
        | '?' :: _ => true
        | _ => false)
    || l.isEmpty

/-- Terminator of weather pattern 3:
`\s+(?:weather|climate|analysis|temperature)`. -/
def p3Term (l : List Char) : Bool :=
  wsThenAnyWord ["weather".data, "climate".data, "analysis".data, "temperature".data] l

/-- Terminator of the `main_backup` patterns: `(?:\s|$|\?|!)`. -/
def mbTerm (l : List Char) : Bool :=
  match l with
  | [] => true
  | c :: _ => isWsC c || c = '?' || c = '!'

/-- The lazy capture: `acc` is what the group holds so far, `need` the
number of still-mandatory class characters; once `need = 0` the
terminator is tried before every extension, and the shortest capture
wins.  A non-class character (or exhausted input) with no terminator
match fails the whole attempt at this start. -/
def lazyCap (term : List Char → Bool) (acc : List Char) (need : Nat) :
    List Char → Option (List Char)
  | [] => if need = 0 && term [] then some acc else none
  | c :: cs =>
    match need with
    | 0 =>
      if term (c :: cs) then some acc
      else if isClassC c then lazyCap term (acc ++ [c]) 0 cs
      else none
    | n + 1 => if isClassC c then lazyCap term (acc ++ [c]) n cs else none

/-- One attempt of `\b<kw>\s+(<first>[a-zA-Z\s,-]<need>?)(?:<term>)` at
the current position (`prev` is the character before it). -/
def tryKwPat (ci : Bool) (kw : List Char) (firstOK : Char → Bool) (need : Nat)
    (term : List Char → Bool) (prev : Option Char) (l : List Char) :
    Option (List Char) :=
  if (match prev with
      | none => true
      | some p => !isWordC p) then
    match matchKw ci kw l with
    | none => none
    | some rest =>
      match rest with
      | [] => none
      | c :: cs =>
        if !isWsC c then none
        else
          match cs.dropWhile isWsC with
          | [] => none
          | c0 :: rest3 => if firstOK c0 then lazyCap term [c0] need rest3 else none
  else none

/-- `re.search` for a keyword pattern: leftmost feasible start wins. -/
def searchKwPat (ci : Bool) (kw : List Char) (firstOK : Char → Bool) (need : Nat)
    (term : List Char → Bool) : Option Char → List Char → Option (List Char)
  | _, [] => none
  | prev, c :: cs =>
    match tryKwPat ci kw firstOK need term prev (c :: cs) with
    | some cap => some cap
    | none => searchKwPat ci kw firstOK need term (some c) cs

/-! ### `IntelligentWeatherTool._extract_and_validate_location` -/

/-- Pattern 1: `\bfor\s+([a-zA-Z][a-zA-Z\s,-]+?)(?:\s+including|\s+with|\?|$)`
(IGNORECASE), candidate then `.strip()`ed. -/
def wpatFor (q : String) : Option String :=
  (searchKwPat true "for".data isAlphaC 1 waTerm none q.data).map
    (fun cap => pyStrip (String.mk cap))

/-- Pattern 2: the same with `\bin\s+…`. -/
def wpatIn (q : String) : Option String :=
  (searchKwPat true "in".data isAlphaC 1 waTerm none q.data).map
    (fun cap => pyStrip (String.mk cap))

/-- Pattern 3: `^([a-zA-Z][a-zA-Z\s,-]+?)\s+(?:weather|climate|analysis|temperature)`
(IGNORECASE), anchored at the start. -/
def wpatStart (q : String) : Option String :=
  match q.data with
  | [] => none
  | c0 :: rest =>
    if isAlphaC c0 then
      (lazyCap p3Term [c0] 1 rest).map (fun cap => pyStrip (String.mk cap))
    else none

/-- The greedy continuation of a capitalized-words match:
`(?:\s+[A-Z][a-zA-Z]+)*\b` with the trailing boundary — a further word
is taken only when it is followed by a non-word character or the end. -/
def capsExtend (fuel : Nat) (acc : List Char) (rest : List Char) :
    List Char × List Char :=
  match fuel with
  | 0 => (acc, rest)
  | fuel + 1 =>
    let wsrun := rest.takeWhile isWsC
    let rest2 := rest.dropWhile isWsC
    if wsrun.isEmpty then (acc, rest)
    else
      match rest2 with
      | [] => (acc, rest)
      | c :: cs =>
        if isUpperC c then
          let w := cs.takeWhile isAlphaC
          let after := cs.dropWhile isAlphaC
          if w.isEmpty then (acc, rest)
          else if (match after with
                   | a :: _ => isWordC a
                   | [] => false) then (acc, rest)
          else capsExtend fuel (acc ++ wsrun ++ (c :: w)) after
        else (acc, rest)

/-- `re.findall(r'\b[A-Z][a-zA-Z]+(?:\s+[A-Z][a-zA-Z]+)*\b', query)`:
scan left to right, matches do not overlap. -/
def capsScan (fuel : Nat) (prev : Option Char) (l : List Char) : List (List Char) :=
  match fuel with
  | 0 => []
  | fuel + 1 =>
    match l with
    | [] => []
    | c :: cs =>
      if (match prev with
          | none => true
          | some p => !isWordC p) && isUpperC c then
        let w := cs.takeWhile isAlphaC
        let after := cs.dropWhile isAlphaC
        if w.isEmpty then capsScan fuel (some c) cs
        else if (match after with
                 | a :: _ => isWordC a
                 | [] => false) then capsScan fuel (some c) cs
        else
          let r := capsExtend after.length (c :: w) after
          r.1 :: capsScan fuel r.1.getLast? r.2
      else capsScan fuel (some c) cs

/-- Pattern 4 raw matches. -/
def capsWords (q : String) : List String :=
  (capsScan q.data.length none q.data).map String.mk

/-- The stoplist of domain words the capitalized-word candidates are
checked against (`word.lower() not in […]`). -/
def waStopWords : List String :=
  ["weather", "analysis", "environmental", "air", "quality", "temperature", "climate"]

def filteredCapsWords (q : String) : List String :=
  (capsWords q).filter (fun w => !waStopWords.contains (pyLower w))

/-- `potential_locations` in source order: the "for" candidate, the
"in" candidate, the sentence-start candidate (all merely stripped),
then the stoplist-filtered capitalized words. -/
def potentialLocations (q : String) : List String :=
  (wpatFor q).toList ++ (wpatIn q).toList ++ (wpatStart q).toList ++ filteredCapsWords q

/-- `_extract_and_validate_location`: with the placeholder `DEMO_KEY`
the first candidate is returned unvalidated; otherwise candidates are
geocoded in order and the first validated result is returned. -/
def extractAndValidateLocation (demoKey : Bool) (geo : String → Option String)
    (q : String) : Option String :=
  if demoKey then (potentialLocations q).head?
  else (potentialLocations q).findSome? geo

/-! ### `main_backup.GeospatialAgent._extract_location`

Patterns `\b(in|for|at|of)\s+([A-Z][a-zA-Z\s,-]{2,}?)(?:\s|$|\?|!)`
(case-sensitive), tried in that order; the first match whose cleaned
candidate is longer than 2 characters is returned. -/

/-- `match.group(1).strip().rstrip(',').rstrip('?').rstrip('!')`. -/
def mbClean (cap : List Char) : String :=
  String.mk (dropTrailing (fun c => c = '!')
    (dropTrailing (fun c => c = '?')
      (dropTrailing (fun c => c = ',') (pyStripData cap))))

def mbPat (kw : String) (q : String) : Option String :=
  (searchKwPat false kw.data isUpperC 2 mbTerm none q.data).map mbClean

def mbKeywords : List String := ["in", "for", "at", "of"]

def mbExtractLocation (q : String) : Option String :=
  mbKeywords.findSome? (fun kw =>
    (mbPat kw q).bind (fun loc => if 2 < loc.length then some loc else none))

/-! ### `gradio_app.AstroGeoGradioApp.extract_location_from_query`

Patterns `(weather|rainfall|temperature|climate) in ([a-zA-Z\s]+)` over
the lowercased query; the first match is `.strip().title()`ed, and when
no pattern matches the function returns the **default** `"Delhi"`. -/

/-- Search for the literal, then the greedy run `([a-zA-Z\s]+)`
(non-empty); an occurrence with an empty run is skipped, the scan
continuing from the next position. -/
def searchLitRun (lit : List Char) : List Char → Option (List Char)
  | [] => none
  | c :: cs =>
    match matchCS lit (c :: cs) with
    | some rest =>
      let run := rest.takeWhile (fun ch => isAlphaC ch || isWsC ch)
      if run.isEmpty then searchLitRun lit cs else some run
    | none => searchLitRun lit cs

/-- Python `str.title` on the lowercase alpha/whitespace runs the
gradio patterns capture. -/
def titleData (prevAlpha : Bool) : List Char → List Char
  | [] => []
  | c :: cs =>
    (if isAlphaC c && !prevAlpha then Char.toUpper c
     else if isAlphaC c && prevAlpha then Char.toLower c
     else c) :: titleData (isAlphaC c) cs

def gradioPatterns : List String :=
  ["weather in ", "rainfall in ", "temperature in ", "climate in "]

def gradioExtractLocation (q : String) : String :=
  match gradioPatterns.findSome? (fun p => searchLitRun p.data (pyLower q).data) with
  | some run => String.mk (titleData false (pyStripData run))
  | none => "Delhi"

/-! ### `IntelligentWeatherTool._validate_location_with_geocoding_api` -/

/-- One geocoding hit (`best_match["name"]`, `best_match["country"]`). -/
structure GeoHit where
  name : String
  country : String
  deriving DecidableEq, Repr

/-- The geocoding world: the direct lookup (exception or parsed hit
list) and the `", India"` retry (exception, or status code with the
payload parsed when the status is 200). -/
structure GeoWorld where
  direct : String → Except String (List GeoHit)
  indiaRetry : String → Except String (Nat × List GeoHit)

/-- `re.sub(r'\s+', ' ', location_candidate.strip())`. -/
def collapseWsF (prevWs : Bool) : List Char → List Char
  | [] => []
  | c :: cs =>
    if isWsC c then
      if prevWs then collapseWsF true cs else ' ' :: collapseWsF true cs
    else c :: collapseWsF false cs

def cleanLocation (s : String) : String :=
  String.mk (collapseWsF false (pyStripData s.data))

/-- `_validate_location_with_geocoding_api`: on a successful direct
lookup it returns `"Name,CC"`; on an empty direct result for a
comma-free candidate it retries with `", India"` appended and, when
that retry answers 200 with a hit, returns the resolved name with the
country fixed to `"IN"`; every failure path yields `None`. -/
def validateLocationWithGeocoding (w : GeoWorld) (cand : String) : Option String :=
  let lc := cleanLocation cand
  match w.direct lc with
  | .error _ => none
  | .ok (best :: _) =>
    if best.country = "IN" then some (best.name ++ ",IN")
    else some (best.name ++ "," ++ best.country)
  | .ok [] =>
    if !pyIn "," lc then
      match w.indiaRetry (lc ++ ", India") with
      | .error _ => none
      | .ok (status, hits) =>
        if status = 200 then
          match hits with
          | h :: _ => some (h.name ++ ",IN")
          | [] => none
        else none
    else none

/-! ## Claims about the location extractor -/

/-- C5: the surface patterns are tried in a fixed priority order
("for", "in", sentence-start, capitalized-phrase in `weather_api`;
"in", "for", "at", "of" in `main_backup`) and the first matching
pattern's candidate wins: with the placeholder key the first candidate
is returned unvalidated, and with geocoding configured the candidates
are validated in that same order with the first validated result
returned. -/
theorem C5_pattern_priority_order (q : String) (geo : String → Option String)
    (c v : String) :
    (extractAndValidateLocation true geo q = (potentialLocations q).head?)
  ∧ (extractAndValidateLocation false geo q = (potentialLocations q).findSome? geo)
  ∧ (wpatFor q = some c → extractAndValidateLocation true geo q = some c)
  ∧ (wpatFor q = none → wpatIn q = some c →
      extractAndValidateLocation true geo q = some c)
  ∧ (wpatFor q = some c → geo c = some v →
      extractAndValidateLocation false geo q = some v)
  ∧ (mbPat "in" q = some c → 2 < c.length → mbExtractLocation q = some c) := by
  refine ⟨rfl, rfl, ?_, ?_, ?_, ?_⟩
  · intro h
    simp [extractAndValidateLocation, potentialLocations, h]
  · intro h1 h2
    simp [extractAndValidateLocation, potentialLocations, h1, h2]
  · intro h hg
    simp [extractAndValidateLocation, potentialLocations, h, List.findSome?, hg]
  · intro h hlen
    simp [mbExtractLocation, mbKeywords, List.findSome?, h, hlen]

/-- The geocoder used by witnesses: validates exactly `"Mumbai"`. -/
def mumbaiGeo : String → Option String :=
  fun c => if c = "Mumbai" then some "Mumbai,IN" else none

/-- Witness for C5: on `"weather for Mumbai"` the "for"-pattern
candidate wins in both modes, and on `"Weather in Mumbai now"` the
`main_backup` "in" pattern wins. -/
theorem C5_pattern_priority_order_witness :
    extractAndValidateLocation true mumbaiGeo "weather for Mumbai" = some "Mumbai"
  ∧ extractAndValidateLocation false mumbaiGeo "weather for Mumbai" = some "Mumbai,IN"
  ∧ mbExtractLocation "Weather in Mumbai now" = some "Mumbai" := by
  refine ⟨(C5_pattern_priority_order "weather for Mumbai" mumbaiGeo "Mumbai" "Mumbai,IN").2.2.1
      (by decide),
    (C5_pattern_priority_order "weather for Mumbai" mumbaiGeo "Mumbai" "Mumbai,IN").2.2.2.2.1
      (by decide) (by decide),
    (C5_pattern_priority_order "Weather in Mumbai now" mumbaiGeo "Mumbai" "Mumbai,IN").2.2.2.2.2
      (by decide) (by decide)⟩

/-- The marking geocoder of the C6 counterexample: it "validates" the
stoplist word `"weather"`, showing that word reaches geocoding. -/
def markingGeo : String → Option String :=
  fun c => if c = "weather" then some "weather-geocoded" else none

/-- Counterexample to C6: on the query `"forecast for weather"` the
"for" pattern captures the stoplist word `"weather"` and it is **not**
filtered — with the placeholder key it is returned as the location,
and with geocoding configured it is submitted to the geocoder (which
here accepts it).  Only the capitalized-phrase candidates pass the
stoplist. -/
theorem C6_stoplist_counterexample :
    extractAndValidateLocation true (fun _ => none) "forecast for weather" = some "weather"
  ∧ waStopWords.contains "weather" = true
  ∧ extractAndValidateLocation false markingGeo "forecast for weather"
      = some "weather-geocoded" := by
  refine ⟨by decide, by decide, by decide⟩

/-- C6 (amended): only the capitalized-phrase heuristic's candidates
are filtered against the stoplist of domain words — every surviving
capitalized-phrase candidate is guaranteed off the stoplist, while the
"for"/"in"/sentence-start candidates are only whitespace-trimmed and
can carry (and forward) stoplist words. -/
theorem C6_stoplist_filters_caps_candidates (q w : String)
    (h : w ∈ filteredCapsWords q) :
    waStopWords.contains (pyLower w) = false := by
  unfold filteredCapsWords at h
  have h2 := (List.mem_filter.mp h).2
  simpa using h2

/-- Witness for C6 (amended): `"Mumbai"` survives the filter on
`"Weather in Mumbai"` and is off the stoplist. -/
theorem C6_stoplist_filters_caps_candidates_witness :
    ("Mumbai" ∈ filteredCapsWords "Weather in Mumbai")
  ∧ waStopWords.contains (pyLower "Mumbai") = false := by
  have hm : "Mumbai" ∈ filteredCapsWords "Weather in Mumbai" := by decide
  exact ⟨hm, C6_stoplist_filters_caps_candidates "Weather in Mumbai" "Mumbai" hm⟩

theorem findSome?_none_of_all {α β : Type} (f : α → Option β) :
    ∀ (l : List α), (∀ x ∈ l, f x = none) → l.findSome? f = none := by
  intro l
  induction l with
  | nil => intro _; rfl
  | cons a as ih =>
    intro h
    have ha := h a (List.mem_cons_self a as)
    have has := fun x hx => h x (List.mem_cons_of_mem a hx)
    simp [List.findSome?, ha, ih has]

/-- Counterexample to C7: the gradio front-end's extractor
(`extract_location_from_query`, cited by the claim) does **not** return
`None` when no candidate exists — on `"hello"` none of its patterns
matches, yet it returns the default place name `"Delhi"`. -/
theorem C7_default_location_counterexample :
    gradioPatterns.findSome? (fun p => searchLitRun p.data (pyLower "hello").data) = none
  ∧ gradioExtractLocation "hello" = "Delhi" := by
  refine ⟨by decide, by decide⟩

/-- C7 (amended): the weather-tool extractor does return `None` — not
an error and not a default place — whenever no candidate is produced,
or geocoding is configured and no candidate validates; likewise
`main_backup`'s extractor when no pattern yields a long-enough
candidate.  The gradio front-end's extractor instead falls back to the
default `"Delhi"`. -/
theorem C7_silent_none_on_failure (q : String) (geo : String → Option String) :
    (potentialLocations q = [] →
      extractAndValidateLocation true geo q = none
      ∧ extractAndValidateLocation false geo q = none)
  ∧ ((∀ c ∈ potentialLocations q, geo c = none) →
      extractAndValidateLocation false geo q = none)
  ∧ ((∀ kw ∈ mbKeywords,
        (mbPat kw q).bind (fun loc => if 2 < loc.length then some loc else none) = none) →
      mbExtractLocation q = none) := by
  refine ⟨?_, ?_, ?_⟩
  · intro h
    unfold extractAndValidateLocation
    rw [h]
    exact ⟨rfl, rfl⟩
  · intro h
    show (potentialLocations q).findSome? geo = none
    exact findSome?_none_of_all geo (potentialLocations q) h
  · intro h
    exact findSome?_none_of_all _ mbKeywords h

/-- Witness for C7 (amended) at `"hello"`: no pattern produces any
candidate and both extractors return `None`. -/
theorem C7_silent_none_on_failure_witness :
    extractAndValidateLocation true (fun _ => none) "hello" = none
  ∧ extractAndValidateLocation false (fun _ => none) "hello" = none
  ∧ mbExtractLocation "hello" = none := by
  have h := C7_silent_none_on_failure "hello" (fun _ => none)
  exact ⟨(h.1 (by decide)).1, (h.1 (by decide)).2, h.2.2 (by decide)⟩

theorem str_append_assoc (a b c : String) : a ++ b ++ c = a ++ (b ++ c) := by
  have : (a ++ b ++ c).data = (a ++ (b ++ c)).data := by
    simp only [string_data_append, List.append_assoc]
  calc a ++ b ++ c = String.mk (a ++ b ++ c).data := rfl
    _ = String.mk (a ++ (b ++ c)).data := by rw [this]
    _ = a ++ (b ++ c) := rfl

/-- C10: every location the geocoding validator resolves is returned
in the combined `"Name,CC"` form (resolved name, comma, ISO country
code), and when the direct lookup yields no hit and the cleaned
candidate has no comma, the validator retries with `", India"`
appended and, if that retry answers 200 with a hit, returns the
resolved name with the country code fixed to `"IN"`. -/
theorem C10_geocoding_combined_form (w : GeoWorld) (cand : String)
    (h : GeoHit) (rest : List GeoHit) :
    (w.direct (cleanLocation cand) = .ok (h :: rest) →
      validateLocationWithGeocoding w cand = some (h.name ++ "," ++ h.country))
  ∧ (∀ st hits, w.direct (cleanLocation cand) = .ok [] →
      pyIn "," (cleanLocation cand) = false →
      w.indiaRetry (cleanLocation cand ++ ", India") = .ok (st, hits) →
      st = 200 → hits = h :: rest →
      validateLocationWithGeocoding w cand = some (h.name ++ ",IN")) := by
  constructor
  · intro hd
    unfold validateLocationWithGeocoding
    dsimp only
    rw [hd]
    dsimp only
    split
    · rename_i hc
      rw [hc, str_append_assoc]
      rfl
    · rfl
  · intro st hits hd hcomma hr hst hh
    subst hst
    subst hh
    unfold validateLocationWithGeocoding
    dsimp only
    rw [hd]
    dsimp only
    rw [hcomma]
    simp only [Bool.not_false, if_true]
    rw [hr]
    rfl

/-- The concrete geocoding world of the C10 witness. -/
def geoWorldW : GeoWorld :=
  { direct := fun s => if s = "Mumbai" then .ok [⟨"Mumbai", "IN"⟩] else .ok []
    indiaRetry := fun s =>
      if s = "Pune, India" then .ok (200, [⟨"Pune", "IN"⟩]) else .ok (404, []) }

/-- Witness for C10: `"Mumbai"` resolves directly to `"Mumbai,IN"`;
`"Pune"` misses directly and resolves through the `", India"` retry. -/
theorem C10_geocoding_combined_form_witness :
    validateLocationWithGeocoding geoWorldW "Mumbai" = some ("Mumbai" ++ "," ++ "IN")
  ∧ validateLocationWithGeocoding geoWorldW "Pune" = some ("Pune" ++ ",IN") := by
  refine ⟨(C10_geocoding_combined_form geoWorldW "Mumbai" ⟨"Mumbai", "IN"⟩ []).1 (by rfl),
    (C10_geocoding_combined_form geoWorldW "Pune" ⟨"Pune", "IN"⟩ []).2 200 [⟨"Pune", "IN"⟩]
      (by rfl) (by decide) (by rfl) rfl rfl⟩
